import Mathlib

/-!
Shallow embedding of the streaming jump-detection engine of
`src/components/feet-tracker.tsx`.  The file holds three documents
(variants) of the `FeetTracker` component:

* variant 1 (first document): `processPose` combines the two foot heights
  with `Math.min`, forces both heights to zero on a low-confidence frame
  (guarded by JS truthiness of each score), and the recording reset clears
  all session state;
* variant 2 (second document): same pipeline plus best-of statistics
  (`bestFlightTime`, `bestFlightJump`, `bestMaxHeight`, `bestMaxJump`)
  updated through nested functional state updates, and a reset that
  deliberately leaves the best-of statistics untouched;
* variant 3 (third document): no confidence check, and the combined height
  is the arithmetic average of the two foot heights.

Numbers are modelled by `ℚ`; machine floats are exact on the small
integer-valued pixel and millisecond quantities the engine handles.
-/

/-- One ankle keypoint as delivered by the pose model: a vertical pixel
coordinate and an optional confidence score (`kp.score` may be
`undefined` in the source). -/
structure Keypoint where
  y : ℚ
  score : Option ℚ
  deriving DecidableEq

/-- One frame handed to `processPose`: the two ankle keypoints (either may
be absent), the canvas height and the frame timestamp in milliseconds. -/
structure Frame where
  leftAnkle : Option Keypoint
  rightAnkle : Option Keypoint
  height : ℚ
  timestamp : ℚ
  deriving DecidableEq

/-- The mutable engine state of variant 1: the refs
(`groundLevelRef`, `inAirRef`, `jumpStartTimeRef`, `feetPositionsRef`) and
the stat hooks (`jumpCount`, `maxHeight`, `flightTime`, `lastJumpHeight`). -/
structure TrackerState where
  groundLevel : Option ℚ
  inAir : Bool
  jumpStartTime : Option ℚ
  feetPositions : List ℚ
  jumpCount : ℕ
  maxHeight : ℚ
  flightTime : ℚ
  lastJumpHeight : ℚ
  deriving DecidableEq

/-- State after the reset performed when a new recording starts
(variant 1, lines 180-187). -/
def initState : TrackerState :=
  { groundLevel := none, inAir := false, jumpStartTime := none,
    feetPositions := [], jumpCount := 0, maxHeight := 0,
    flightTime := 0, lastJumpHeight := 0 }

/-- An accepted jump: the stat updates performed when
`jumpFlightTime > 0.1`, together with the index the jump receives. -/
structure JumpEvent where
  jumpIndex : ℕ
  startTimestampMs : ℚ
  endTimestampMs : ℚ
  flightTimeSeconds : ℚ
  peakHeightPx : ℚ
  deriving DecidableEq

/-- A completed airborne episode (falling edge with a recorded start),
before the debounce filter is applied. -/
structure Episode where
  startTimestampMs : ℚ
  endTimestampMs : ℚ
  flightTimeSeconds : ℚ
  peakHeightPx : ℚ
  deriving DecidableEq

/-- Everything one call of `processPose` produces: the new state, the
accepted jump (if any), the completed episode (if any, accepted or not)
and the pair pushed to `onFeetHeightUpdate` (absent when the frame is
skipped). -/
structure TickResult where
  state : TrackerState
  event : Option JumpEvent
  episode : Option Episode
  chart : Option (ℚ × ℚ)
  deriving DecidableEq

/-- JS truthiness of an optional score: `undefined` and `0` are falsy. -/
def scoreTruthy : Option ℚ → Bool
  | none => false
  | some s => s != 0

/-- Numeric value of a score; only read under a truthiness guard, where it
is present. -/
def scoreVal : Option ℚ → ℚ
  | none => 0
  | some s => s

/-- Lines 295-305 of variant 1: heights are forced to `(0, 0)` when both
scores are truthy and their sum is below `0.6`; otherwise each height is
the distance of the ankle from the bottom of the frame. -/
def footHeights (height : ℚ) (la ra : Keypoint) : ℚ × ℚ :=
  if scoreTruthy la.score && scoreTruthy ra.score
      && decide (scoreVal ra.score + scoreVal la.score < 3/5) then
    (0, 0)
  else
    (height - la.y, height - ra.y)

/-- Lines 313-316: push the combined height, then shift off the oldest
entry if the length exceeds 30. -/
def pushWindow (xs : List ℚ) (x : ℚ) : List ℚ :=
  let b := xs ++ [x]
  if 30 < b.length then b.drop 1 else b

/-- Lines 318-328: the ground level is the first combined height when
absent; afterwards it is replaced only by a strictly lower value within
the 100 px tolerance band. -/
def groundUpdate : Option ℚ → ℚ → ℚ
  | none, c => c
  | some g, c => if c < g ∧ g - 100 < c then c else g

/-- Model of `xs.slice(-n)`: the most recent `n` entries (all of them
when the list is shorter). -/
def takeLast (n : ℕ) (xs : List ℚ) : List ℚ :=
  xs.drop (xs.length - n)

/-- Model of `Math.max(...xs)`.  The engine only applies it to the
nonempty `slice(-15)` of a buffer that just received a push; the empty
case is unreachable there. -/
def jsMax : List ℚ → ℚ
  | [] => 0
  | x :: xs => xs.foldl max x

/-- Line 331: pixels above ground level that count as airborne. -/
def jumpThreshold : ℚ := 20

/-- Variant 1 `processPose` (lines 277-380), minus the canvas drawing.
One tick: extract the foot heights, combine with `min`, push onto the
sliding buffer, update the ground level, then run the two-state airborne
machine with the `0.1 s` debounce on the falling edge. -/
def processPose (s : TrackerState) (f : Frame) : TickResult :=
  match f.leftAnkle, f.rightAnkle with
  | some la, some ra =>
    let lh := (footHeights f.height la ra).1
    let rh := (footHeights f.height la ra).2
    let avgFootHeight := min lh rh
    let feet := pushWindow s.feetPositions avgFootHeight
    let ground := groundUpdate s.groundLevel avgFootHeight
    if ground + jumpThreshold < avgFootHeight ∧ s.inAir = false then
      let s1 := { s with feetPositions := feet, groundLevel := some ground,
                         inAir := true, jumpStartTime := some f.timestamp }
      { state := s1, event := none, episode := none, chart := some (lh, rh) }
    else if ¬ (ground + jumpThreshold < avgFootHeight) ∧ s.inAir = true then
      match s.jumpStartTime with
      | some t0 =>
        let jumpFlightTime := (f.timestamp - t0) / 1000
        let recentHeights := takeLast 15 feet
        let relativeJumpHeight := jsMax recentHeights - ground
        let ep : Episode :=
          { startTimestampMs := t0, endTimestampMs := f.timestamp,
            flightTimeSeconds := jumpFlightTime,
            peakHeightPx := relativeJumpHeight }
        if 1/10 < jumpFlightTime then
          let s1 := { s with feetPositions := feet, groundLevel := some ground,
                             inAir := false, jumpCount := s.jumpCount + 1,
                             flightTime := jumpFlightTime,
                             lastJumpHeight := relativeJumpHeight,
                             maxHeight := max s.maxHeight relativeJumpHeight }
          let ev : JumpEvent :=
            { jumpIndex := s.jumpCount + 1, startTimestampMs := t0,
              endTimestampMs := f.timestamp,
              flightTimeSeconds := jumpFlightTime,
              peakHeightPx := relativeJumpHeight }
          { state := s1, event := some ev, episode := some ep,
            chart := some (lh, rh) }
        else
          let s1 := { s with feetPositions := feet, groundLevel := some ground,
                             inAir := false }
          { state := s1, event := none, episode := some ep,
            chart := some (lh, rh) }
      | none =>
        let s1 := { s with feetPositions := feet, groundLevel := some ground,
                           inAir := false }
        { state := s1, event := none, episode := none, chart := some (lh, rh) }
    else
      let s1 := { s with feetPositions := feet, groundLevel := some ground }
      { state := s1, event := none, episode := none, chart := some (lh, rh) }
  | _, _ => { state := s, event := none, episode := none, chart := none }

/-- Fold a frame sequence through variant 1, keeping only the state. -/
def runTicks (s : TrackerState) (fs : List Frame) : TrackerState :=
  fs.foldl (fun t f => (processPose t f).state) s

/-- A run that also collects the accepted jumps and the completed
episodes, in order. -/
structure Trace where
  state : TrackerState
  events : List JumpEvent
  episodes : List Episode
  deriving DecidableEq

/-- One tick of the collecting run. -/
def traceStep (tr : Trace) (f : Frame) : Trace :=
  let r := processPose tr.state f
  { state := r.state, events := tr.events ++ r.event.toList,
    episodes := tr.episodes ++ r.episode.toList }

/-- Collecting run of variant 1 from a given state. -/
def runTrace (s : TrackerState) (fs : List Frame) : Trace :=
  fs.foldl traceStep { state := s, events := [], episodes := [] }

/-- A frame whose two ankles sit at the same height `v` above the bottom
of a 480 px frame, with well-detected (0.9) scores, at time `t`. -/
def frameAt (v t : ℚ) : Frame :=
  { leftAnkle := some { y := 480 - v, score := some (9/10) },
    rightAnkle := some { y := 480 - v, score := some (9/10) },
    height := 480, timestamp := t }

/-- Scenario A of the specification: combined heights
`[100,100,100,125,140,125,100,100]` at 33 ms steps from `t = 0`. -/
def scenarioA : List Frame :=
  [frameAt 100 0, frameAt 100 33, frameAt 100 66, frameAt 125 99,
   frameAt 140 132, frameAt 125 165, frameAt 100 198, frameAt 100 231]

/-- The engine state of variant 2 (second document): variant 1's state
plus the best-of statistics `bestFlightTime`, `bestFlightJump`,
`bestMaxHeight`, `bestMaxJump` (lines 589-596). -/
structure TrackerStateV2 where
  groundLevel : Option ℚ
  inAir : Bool
  jumpStartTime : Option ℚ
  feetPositions : List ℚ
  jumpCount : ℕ
  maxHeight : ℚ
  flightTime : ℚ
  lastJumpHeight : ℚ
  bestFlightTime : ℚ
  bestFlightJump : ℕ
  bestMaxHeight : ℚ
  bestMaxJump : ℕ
  deriving DecidableEq

/-- Variant 2 state at component mount: every counter starts at 0. -/
def initStateV2 : TrackerStateV2 :=
  { groundLevel := none, inAir := false, jumpStartTime := none,
    feetPositions := [], jumpCount := 0, maxHeight := 0,
    flightTime := 0, lastJumpHeight := 0,
    bestFlightTime := 0, bestFlightJump := 0,
    bestMaxHeight := 0, bestMaxJump := 0 }

/-- The reset run when a new recording starts in variant 2
(lines 714-725): the tracking refs are cleared and the four session
counters zeroed; the best-of statistics are deliberately not touched
("Best jump stats are NOT reset now so they persist across
recordings"). -/
def resetV2 (s : TrackerStateV2) : TrackerStateV2 :=
  { s with groundLevel := none, inAir := false, jumpStartTime := none,
           feetPositions := [], jumpCount := 0, maxHeight := 0,
           flightTime := 0, lastJumpHeight := 0 }

/-- Result of one variant 2 tick. -/
structure TickResultV2 where
  state : TrackerStateV2
  event : Option JumpEvent
  episode : Option Episode
  chart : Option (ℚ × ℚ)
  deriving DecidableEq

/-- Variant 2 `processPose` (lines 788-868).  Identical pipeline to
variant 1 up to the accepted-jump branch, where the nested functional
state updates (lines 837-857) additionally maintain the best-of
statistics: each nested updater reads the pre-event value of its own
counter and the freshly computed `newJumpCount`. -/
def processPoseV2 (s : TrackerStateV2) (f : Frame) : TickResultV2 :=
  match f.leftAnkle, f.rightAnkle with
  | some la, some ra =>
    let lh := (footHeights f.height la ra).1
    let rh := (footHeights f.height la ra).2
    let avgFootHeight := min lh rh
    let feet := pushWindow s.feetPositions avgFootHeight
    let ground := groundUpdate s.groundLevel avgFootHeight
    if ground + jumpThreshold < avgFootHeight ∧ s.inAir = false then
      let s1 := { s with feetPositions := feet, groundLevel := some ground,
                         inAir := true, jumpStartTime := some f.timestamp }
      { state := s1, event := none, episode := none, chart := some (lh, rh) }
    else if ¬ (ground + jumpThreshold < avgFootHeight) ∧ s.inAir = true then
      match s.jumpStartTime with
      | some t0 =>
        let jumpFlightTime := (f.timestamp - t0) / 1000
        let recentHeights := takeLast 15 feet
        let relativeJumpHeight := jsMax recentHeights - ground
        let ep : Episode :=
          { startTimestampMs := t0, endTimestampMs := f.timestamp,
            flightTimeSeconds := jumpFlightTime,
            peakHeightPx := relativeJumpHeight }
        if 1/10 < jumpFlightTime then
          let newJumpCount := s.jumpCount + 1
          let s1 := { s with feetPositions := feet, groundLevel := some ground,
                             inAir := false, jumpCount := newJumpCount,
                             flightTime := jumpFlightTime,
                             lastJumpHeight := relativeJumpHeight,
                             maxHeight := max s.maxHeight relativeJumpHeight,
                             bestFlightTime :=
                               if s.bestFlightTime < jumpFlightTime then
                                 jumpFlightTime else s.bestFlightTime,
                             bestFlightJump :=
                               if s.bestFlightTime < jumpFlightTime then
                                 newJumpCount else s.bestFlightJump,
                             bestMaxHeight :=
                               if s.bestMaxHeight < relativeJumpHeight then
                                 relativeJumpHeight else s.bestMaxHeight,
                             bestMaxJump :=
                               if s.bestMaxHeight < relativeJumpHeight then
                                 newJumpCount else s.bestMaxJump }
          let ev : JumpEvent :=
            { jumpIndex := newJumpCount, startTimestampMs := t0,
              endTimestampMs := f.timestamp,
              flightTimeSeconds := jumpFlightTime,
              peakHeightPx := relativeJumpHeight }
          { state := s1, event := some ev, episode := some ep,
            chart := some (lh, rh) }
        else
          let s1 := { s with feetPositions := feet, groundLevel := some ground,
                             inAir := false }
          { state := s1, event := none, episode := some ep,
            chart := some (lh, rh) }
      | none =>
        let s1 := { s with feetPositions := feet, groundLevel := some ground,
                           inAir := false }
        { state := s1, event := none, episode := none, chart := some (lh, rh) }
    else
      let s1 := { s with feetPositions := feet, groundLevel := some ground }
      { state := s1, event := none, episode := none, chart := some (lh, rh) }
  | _, _ => { state := s, event := none, episode := none, chart := none }

/-- Collecting run of variant 2. -/
structure TraceV2 where
  state : TrackerStateV2
  events : List JumpEvent
  episodes : List Episode
  deriving DecidableEq

/-- One tick of the collecting run of variant 2. -/
def traceStepV2 (tr : TraceV2) (f : Frame) : TraceV2 :=
  let r := processPoseV2 tr.state f
  { state := r.state, events := tr.events ++ r.event.toList,
    episodes := tr.episodes ++ r.episode.toList }

/-- Collecting run of variant 2 from a given state. -/
def runTraceV2 (s : TrackerStateV2) (fs : List Frame) : TraceV2 :=
  fs.foldl traceStepV2 { state := s, events := [], episodes := [] }

/-- Variant 3 `processPose` (lines 1279-1352): same state shape as
variant 1, but the foot heights are always the raw distances from the
bottom of the frame (no confidence check, lines 1293-1294) and the
combined height is their arithmetic average (line 1295). -/
def processPoseV3 (s : TrackerState) (f : Frame) : TickResult :=
  match f.leftAnkle, f.rightAnkle with
  | some la, some ra =>
    let lh := f.height - la.y
    let rh := f.height - ra.y
    let avgFootHeight := (lh + rh) / 2
    let feet := pushWindow s.feetPositions avgFootHeight
    let ground := groundUpdate s.groundLevel avgFootHeight
    if ground + jumpThreshold < avgFootHeight ∧ s.inAir = false then
      let s1 := { s with feetPositions := feet, groundLevel := some ground,
                         inAir := true, jumpStartTime := some f.timestamp }
      { state := s1, event := none, episode := none, chart := some (lh, rh) }
    else if ¬ (ground + jumpThreshold < avgFootHeight) ∧ s.inAir = true then
      match s.jumpStartTime with
      | some t0 =>
        let jumpFlightTime := (f.timestamp - t0) / 1000
        let recentHeights := takeLast 15 feet
        let relativeJumpHeight := jsMax recentHeights - ground
        let ep : Episode :=
          { startTimestampMs := t0, endTimestampMs := f.timestamp,
            flightTimeSeconds := jumpFlightTime,
            peakHeightPx := relativeJumpHeight }
        if 1/10 < jumpFlightTime then
          let s1 := { s with feetPositions := feet, groundLevel := some ground,
                             inAir := false, jumpCount := s.jumpCount + 1,
                             flightTime := jumpFlightTime,
                             lastJumpHeight := relativeJumpHeight,
                             maxHeight := max s.maxHeight relativeJumpHeight }
          let ev : JumpEvent :=
            { jumpIndex := s.jumpCount + 1, startTimestampMs := t0,
              endTimestampMs := f.timestamp,
              flightTimeSeconds := jumpFlightTime,
              peakHeightPx := relativeJumpHeight }
          { state := s1, event := some ev, episode := some ep,
            chart := some (lh, rh) }
        else
          let s1 := { s with feetPositions := feet, groundLevel := some ground,
                             inAir := false }
          { state := s1, event := none, episode := some ep,
            chart := some (lh, rh) }
      | none =>
        let s1 := { s with feetPositions := feet, groundLevel := some ground,
                           inAir := false }
        { state := s1, event := none, episode := none, chart := some (lh, rh) }
    else
      let s1 := { s with feetPositions := feet, groundLevel := some ground }
      { state := s1, event := none, episode := none, chart := some (lh, rh) }
  | _, _ => { state := s, event := none, episode := none, chart := none }

/-- Scenario C of the specification, as frames: ground 100, a first jump
held at 130 for 200 ms (peak 30 px) and a second held at 150 for 200 ms
(peak 50 px). -/
def scenarioC : List Frame :=
  [frameAt 100 0, frameAt 130 100, frameAt 130 200, frameAt 100 300,
   frameAt 150 400, frameAt 150 500, frameAt 100 600]

/-! Concrete inputs used by the scenarios, witnesses and
counterexamples below. -/

/-- A well-detected keypoint 50 px above the bottom of a 480 px frame. -/
def kpLow : Keypoint := { y := 430, score := some (9/10) }

/-- A frame whose combined height is 50, at time 0. -/
def frameLow : Frame :=
  { leftAnkle := some kpLow, rightAnkle := some kpLow,
    height := 480, timestamp := 0 }

/-- A state whose ground level has settled at 100. -/
def stateGround : TrackerState := { initState with groundLevel := some 100 }

/-- A state that is airborne since time 0 over ground 100. -/
def stateAirborne : TrackerState :=
  { initState with groundLevel := some 100, inAir := true,
                   jumpStartTime := some 0, feetPositions := [100, 125] }

/-- A frame landing back at combined height 100 at time 50. -/
def frameLand : Frame :=
  { leftAnkle := some { y := 380, score := some (9/10) },
    rightAnkle := some { y := 380, score := some (9/10) },
    height := 480, timestamp := 50 }

/-- A frame with both ankles present whose left confidence is exactly 0
and right confidence 0.2: the sum 0.2 is below 0.6. -/
def frameZeroConf : Frame :=
  { leftAnkle := some { y := 380, score := some 0 },
    rightAnkle := some { y := 280, score := some (1/5) },
    height := 480, timestamp := 0 }

/-- A frame with both confidences 0.2 (sum 0.4 < 0.6, both nonzero). -/
def frameLowConf : Frame :=
  { leftAnkle := some { y := 380, score := some (1/5) },
    rightAnkle := some { y := 280, score := some (1/5) },
    height := 480, timestamp := 0 }

/-- A frame whose two raw foot heights differ: 100 px and 200 px. -/
def frameTwoFeet : Frame :=
  { leftAnkle := some { y := 380, score := some (9/10) },
    rightAnkle := some { y := 280, score := some (9/10) },
    height := 480, timestamp := 0 }

/-- A variant 2 state that has already counted one jump and is airborne
since time 0 over ground 100. -/
def stateOneJump : TrackerStateV2 :=
  { initStateV2 with groundLevel := some 100, inAir := true,
                     jumpStartTime := some 0, jumpCount := 1 }

/-- The landing frame of the witness jump, 200 ms after takeoff. -/
def frameEndJump : Frame :=
  { leftAnkle := some { y := 380, score := some (9/10) },
    rightAnkle := some { y := 380, score := some (9/10) },
    height := 480, timestamp := 200 }

/-- A frame whose left ankle never got detected. -/
def frameNoLeft : Frame :=
  { leftAnkle := none,
    rightAnkle := some { y := 380, score := some (9/10) },
    height := 480, timestamp := 0 }

set_option maxRecDepth 10000

/-- On a frame with both ankles present, the new ground level is
`groundUpdate` of the combined height, whatever the airborne branch. -/
theorem processPose_groundLevel_present (s : TrackerState) (f : Frame)
    (la ra : Keypoint) (hl : f.leftAnkle = some la)
    (hr : f.rightAnkle = some ra) :
    (processPose s f).state.groundLevel =
      some (groundUpdate s.groundLevel
        (min (footHeights f.height la ra).1 (footHeights f.height la ra).2)) := by
  simp only [processPose, hl, hr]
  split
  · rfl
  · split
    · rcases s.jumpStartTime with _ | t0
      · rfl
      · simp only
        split <;> rfl
    · rfl

/-- A frame with a missing ankle leaves the whole tick result trivial. -/
theorem processPose_skip (s : TrackerState) (f : Frame)
    (h : f.leftAnkle = none ∨ f.rightAnkle = none) :
    processPose s f =
      { state := s, event := none, episode := none, chart := none } := by
  rcases hl : f.leftAnkle with _ | la <;> rcases hr : f.rightAnkle with _ | ra <;>
    simp only [processPose, hl, hr]
  rcases h with h | h
  · rw [hl] at h; cases h
  · rw [hr] at h; cases h

/-- On a frame with both ankles present, the buffer is the pushed window. -/
theorem processPose_feet_present (s : TrackerState) (f : Frame)
    (la ra : Keypoint) (hl : f.leftAnkle = some la)
    (hr : f.rightAnkle = some ra) :
    (processPose s f).state.feetPositions =
      pushWindow s.feetPositions
        (min (footHeights f.height la ra).1 (footHeights f.height la ra).2) := by
  simp only [processPose, hl, hr]
  split
  · rfl
  · split
    · rcases s.jumpStartTime with _ | t0
      · rfl
      · simp only
        split <;> rfl
    · rfl

/-- On a frame with both ankles present, the chart consumer receives the
extracted pair of foot heights. -/
theorem processPose_chart_present (s : TrackerState) (f : Frame)
    (la ra : Keypoint) (hl : f.leftAnkle = some la)
    (hr : f.rightAnkle = some ra) :
    (processPose s f).chart =
      some ((footHeights f.height la ra).1, (footHeights f.height la ra).2) := by
  simp only [processPose, hl, hr]
  split
  · rfl
  · split
    · rcases s.jumpStartTime with _ | t0
      · rfl
      · simp only
        split <;> rfl
    · rfl

/-- The pushed window always ends with the sample pushed this tick. -/
theorem pushWindow_getLast (xs : List ℚ) (x : ℚ) :
    (pushWindow xs x).getLast? = some x := by
  simp only [pushWindow]
  split
  · rename_i h
    rw [List.getLast?_drop]
    have h1 : ¬ (xs ++ [x]).length ≤ 1 := by
      simp only [List.length_append, List.length_cons, List.length_nil] at h ⊢
      omega
    rw [if_neg h1, List.getLast?_concat]
  · exact List.getLast?_concat _

/-- The pushed window never exceeds 30 entries when the buffer respected
the bound before the push. -/
theorem pushWindow_length_le (xs : List ℚ) (x : ℚ) (h : xs.length ≤ 30) :
    (pushWindow xs x).length ≤ 30 := by
  simp only [pushWindow]
  split <;> rename_i h1 <;>
    simp only [List.length_drop, List.length_append, List.length_cons,
      List.length_nil] at h1 ⊢ <;> omega

/-- Full description of a falling-edge tick (airborne before, grounded
after) with a recorded jump start: the completed episode is always
produced, and the debounce filter decides between the accepted-jump state
update and no update of the stats. -/
theorem processPose_fallingEdge (s : TrackerState) (f : Frame)
    (la ra : Keypoint) (t0 : ℚ) (c : ℚ) (feet : List ℚ)
    (ground ft peak : ℚ) (hl : f.leftAnkle = some la)
    (hr : f.rightAnkle = some ra) (hair : s.inAir = true)
    (hstart : s.jumpStartTime = some t0)
    (hfall : (processPose s f).state.inAir = false)
    (hc : c = min (footHeights f.height la ra).1 (footHeights f.height la ra).2)
    (hfeet : feet = pushWindow s.feetPositions c)
    (hground : ground = groundUpdate s.groundLevel c)
    (hft : ft = (f.timestamp - t0) / 1000)
    (hpeak : peak = jsMax (takeLast 15 feet) - ground) :
    (processPose s f).episode =
      some { startTimestampMs := t0, endTimestampMs := f.timestamp,
             flightTimeSeconds := ft, peakHeightPx := peak } ∧
    (if 1/10 < ft then
      (processPose s f).event =
        some { jumpIndex := s.jumpCount + 1, startTimestampMs := t0,
               endTimestampMs := f.timestamp, flightTimeSeconds := ft,
               peakHeightPx := peak } ∧
      (processPose s f).state =
        { s with feetPositions := feet, groundLevel := some ground,
                 inAir := false, jumpCount := s.jumpCount + 1,
                 flightTime := ft, lastJumpHeight := peak,
                 maxHeight := max s.maxHeight peak }
    else
      (processPose s f).event = none ∧
      (processPose s f).state =
        { s with feetPositions := feet, groundLevel := some ground,
                 inAir := false }) := by
  subst hpeak hft hground hfeet hc
  simp only [processPose, hl, hr, hstart] at hfall ⊢
  have hA : ¬ (groundUpdate s.groundLevel
      (min (footHeights f.height la ra).1 (footHeights f.height la ra).2) +
        jumpThreshold <
      min (footHeights f.height la ra).1 (footHeights f.height la ra).2 ∧
      s.inAir = false) := by
    rintro ⟨-, h2⟩
    rw [hair] at h2
    cases h2
  rw [if_neg hA] at hfall ⊢
  by_cases hB : groundUpdate s.groundLevel
      (min (footHeights f.height la ra).1 (footHeights f.height la ra).2) +
        jumpThreshold <
      min (footHeights f.height la ra).1 (footHeights f.height la ra).2
  · have hC : ¬ (¬ (groundUpdate s.groundLevel
        (min (footHeights f.height la ra).1 (footHeights f.height la ra).2) +
          jumpThreshold <
        min (footHeights f.height la ra).1 (footHeights f.height la ra).2) ∧
        s.inAir = true) := fun h => h.1 hB
    rw [if_neg hC] at hfall
    simp only [hair] at hfall
    cases hfall
  · have hC : (¬ (groundUpdate s.groundLevel
        (min (footHeights f.height la ra).1 (footHeights f.height la ra).2) +
          jumpThreshold <
        min (footHeights f.height la ra).1 (footHeights f.height la ra).2) ∧
        s.inAir = true) := ⟨hB, hair⟩
    rw [if_pos hC]
    by_cases hD : (1:ℚ)/10 < (f.timestamp - t0) / 1000
    · rw [if_pos hD, if_pos hD]
      exact ⟨rfl, rfl, rfl⟩
    · rw [if_neg hD, if_neg hD]
      exact ⟨rfl, rfl, rfl⟩

/-- A set ground level can only decrease in one ground update. -/
theorem groundUpdate_le (g c : ℚ) : groundUpdate (some g) c ≤ g := by
  show (if c < g ∧ g - 100 < c then c else g) ≤ g
  split
  · rename_i h
    exact le_of_lt h.1
  · exact le_refl g

/-- Unfolding one tick of `runTicks`. -/
theorem runTicks_cons (s : TrackerState) (f : Frame) (fs : List Frame) :
    runTicks s (f :: fs) = runTicks (processPose s f).state fs := rfl

/-- One tick can only lower a set ground level, whatever the frame. -/
theorem ground_step_le (s : TrackerState) (f : Frame) (g : ℚ)
    (hg : s.groundLevel = some g) :
    ∃ g1, (processPose s f).state.groundLevel = some g1 ∧ g1 ≤ g := by
  rcases hl : f.leftAnkle with _ | la
  · rw [processPose_skip s f (Or.inl hl)]
    exact ⟨g, hg, le_refl g⟩
  · rcases hr : f.rightAnkle with _ | ra
    · rw [processPose_skip s f (Or.inr hr)]
      exact ⟨g, hg, le_refl g⟩
    · rw [processPose_groundLevel_present s f la ra hl hr, hg]
      exact ⟨_, rfl, groundUpdate_le g _⟩

/-- A whole run can only lower a set ground level. -/
theorem ground_run_le (fs : List Frame) :
    ∀ (s : TrackerState) (g : ℚ), s.groundLevel = some g →
      ∃ gEnd, (runTicks s fs).groundLevel = some gEnd ∧ gEnd ≤ g := by
  induction fs with
  | nil =>
    intro s g hg
    exact ⟨g, hg, le_refl g⟩
  | cons f fs ih =>
    intro s g hg
    rcases ground_step_le s f g hg with ⟨g1, h1, hle1⟩
    rcases ih (processPose s f).state g1 h1 with ⟨gEnd, h2, hle2⟩
    exact ⟨gEnd, by rw [runTicks_cons]; exact h2, le_trans hle2 hle1⟩

/-- Variant 3: on a frame with both ankles present the buffer receives the
arithmetic average of the two raw foot heights. -/
theorem processPoseV3_feet_present (s : TrackerState) (f : Frame)
    (la ra : Keypoint) (hl : f.leftAnkle = some la)
    (hr : f.rightAnkle = some ra) :
    (processPoseV3 s f).state.feetPositions =
      pushWindow s.feetPositions (((f.height - la.y) + (f.height - ra.y)) / 2) := by
  simp only [processPoseV3, hl, hr]
  split
  · rfl
  · split
    · rcases s.jumpStartTime with _ | t0
      · rfl
      · simp only
        split <;> rfl
    · rfl

/-- Variant 2: on a frame with both ankles present the buffer receives
the minimum of the two extracted foot heights, exactly as in variant 1. -/
theorem processPoseV2_feet_present (s : TrackerStateV2) (f : Frame)
    (la ra : Keypoint) (hl : f.leftAnkle = some la)
    (hr : f.rightAnkle = some ra) :
    (processPoseV2 s f).state.feetPositions =
      pushWindow s.feetPositions
        (min (footHeights f.height la ra).1 (footHeights f.height la ra).2) := by
  simp only [processPoseV2, hl, hr]
  split
  · rfl
  · split
    · rcases s.jumpStartTime with _ | t0
      · rfl
      · simp only
        split <;> rfl
    · rfl

/-- Below capacity, a push appends and evicts nothing. -/
theorem pushWindow_of_lt (xs : List ℚ) (x : ℚ) (h : xs.length < 30) :
    pushWindow xs x = xs ++ [x] := by
  simp only [pushWindow]
  rw [if_neg]
  simp only [List.length_append, List.length_cons, List.length_nil]
  omega

/-- At capacity, a push evicts exactly the oldest entry. -/
theorem pushWindow_of_eq (xs : List ℚ) (x : ℚ) (h : xs.length = 30) :
    pushWindow xs x = xs.drop 1 ++ [x] := by
  simp only [pushWindow]
  rw [if_pos, List.drop_append_of_le_length (by omega)]
  simp only [List.length_append, List.length_cons, List.length_nil]
  omega

/-- One tick preserves the 30-entry bound. -/
theorem processPose_length_le (s : TrackerState) (f : Frame)
    (h : s.feetPositions.length ≤ 30) :
    (processPose s f).state.feetPositions.length ≤ 30 := by
  rcases hl : f.leftAnkle with _ | la
  · rw [processPose_skip s f (Or.inl hl)]
    exact h
  · rcases hr : f.rightAnkle with _ | ra
    · rw [processPose_skip s f (Or.inr hr)]
      exact h
    · rw [processPose_feet_present s f la ra hl hr]
      exact pushWindow_length_le _ _ h

/-- A whole run preserves the 30-entry bound. -/
theorem runTicks_length_le (fs : List Frame) :
    ∀ s : TrackerState, s.feetPositions.length ≤ 30 →
      (runTicks s fs).feetPositions.length ≤ 30 := by
  induction fs with
  | nil =>
    intro s h
    exact h
  | cons f fs ih =>
    intro s h
    rw [runTicks_cons]
    exact ih _ (processPose_length_le s f h)

/-- Claim C1: within one session, once the ground level is set it never
increases over any sequence of processed samples; on each processed tick
it is replaced by the incoming combined height exactly when that height is
strictly below the current ground level and strictly above the current
ground level minus 100, and stays unchanged otherwise. -/
theorem groundLevel_monotone_update (s : TrackerState) (g : ℚ)
    (hg : s.groundLevel = some g) :
    (∀ (f : Frame) (la ra : Keypoint), f.leftAnkle = some la →
      f.rightAnkle = some ra →
      (processPose s f).state.groundLevel =
        some (if min (footHeights f.height la ra).1
                  (footHeights f.height la ra).2 < g ∧
                g - 100 <
                  min (footHeights f.height la ra).1
                    (footHeights f.height la ra).2
              then min (footHeights f.height la ra).1
                     (footHeights f.height la ra).2
              else g)) ∧
    (∀ fs : List Frame,
      ∃ gEnd, (runTicks s fs).groundLevel = some gEnd ∧ gEnd ≤ g) := by
  constructor
  · intro f la ra hl hr
    rw [processPose_groundLevel_present s f la ra hl hr, hg]
    rfl
  · intro fs
    exact ground_run_le fs s g hg

/-- Witness for C1 at a concrete state and frame: ground 100, incoming
combined height 50, which is strictly below 100 and inside the tolerance
band, so the ground level is replaced (and the run never raises it). -/
theorem groundLevel_monotone_update_witness :
    ((processPose stateGround frameLow).state.groundLevel =
      some (if min (footHeights frameLow.height kpLow kpLow).1
                (footHeights frameLow.height kpLow kpLow).2 < 100 ∧
              (100 : ℚ) - 100 <
                min (footHeights frameLow.height kpLow kpLow).1
                  (footHeights frameLow.height kpLow kpLow).2
            then min (footHeights frameLow.height kpLow kpLow).1
                   (footHeights frameLow.height kpLow kpLow).2
            else 100)) ∧
    ∃ gEnd, (runTicks stateGround [frameLow]).groundLevel = some gEnd ∧
      gEnd ≤ 100 :=
  ⟨(groundLevel_monotone_update stateGround 100 rfl).1 frameLow kpLow kpLow
      rfl rfl,
   (groundLevel_monotone_update stateGround 100 rfl).2 [frameLow]⟩

/-- Claim C2: a completed airborne episode whose flight time
`(end - start) / 1000` is at most 0.1 s produces no jump event and leaves
`jumpCount`, `lastJumpHeight`, `flightTime` and `maxHeight` unchanged. -/
theorem debounce_floor (s : TrackerState) (f : Frame) (la ra : Keypoint)
    (t0 : ℚ) (hl : f.leftAnkle = some la) (hr : f.rightAnkle = some ra)
    (hair : s.inAir = true) (hstart : s.jumpStartTime = some t0)
    (hfall : (processPose s f).state.inAir = false)
    (hshort : (f.timestamp - t0) / 1000 ≤ 1/10) :
    (processPose s f).event = none ∧
    (processPose s f).state.jumpCount = s.jumpCount ∧
    (processPose s f).state.lastJumpHeight = s.lastJumpHeight ∧
    (processPose s f).state.flightTime = s.flightTime ∧
    (processPose s f).state.maxHeight = s.maxHeight := by
  have h := processPose_fallingEdge s f la ra t0 _ _ _ _ _ hl hr hair hstart
    hfall rfl rfl rfl rfl rfl
  rw [if_neg (not_lt.mpr hshort)] at h
  rcases h with ⟨-, hev, hstate⟩
  rw [hstate]
  exact ⟨hev, rfl, rfl, rfl, rfl⟩

/-- Witness for C2: landing 50 ms after takeoff (flight 0.05 s ≤ 0.1 s)
produces no event and leaves the four stats unchanged. -/
theorem debounce_floor_witness :
    (processPose stateAirborne frameLand).event = none ∧
    (processPose stateAirborne frameLand).state.jumpCount =
      stateAirborne.jumpCount ∧
    (processPose stateAirborne frameLand).state.lastJumpHeight =
      stateAirborne.lastJumpHeight ∧
    (processPose stateAirborne frameLand).state.flightTime =
      stateAirborne.flightTime ∧
    (processPose stateAirborne frameLand).state.maxHeight =
      stateAirborne.maxHeight :=
  debounce_floor stateAirborne frameLand _ _ 0 rfl rfl rfl rfl
    (by with_unfolding_all decide) (by with_unfolding_all decide)

/-- Counterexample to claim C3 as stated: in `frameZeroConf` both ankles
are present and the confidence sum 0 + 0.2 is below 0.6, yet the heights
are not forced to 0 — the raw heights (100, 200) are published, because
the source guards the low-confidence branch with JS truthiness of each
score and a score of exactly 0 is falsy. -/
theorem lowConfidence_zero_score_counterexample :
    ((0 : ℚ) + 1/5 < 3/5) ∧
    (processPose initState frameZeroConf).chart = some (100, 200) ∧
    ¬ (processPose initState frameZeroConf).chart = some (0, 0) := by
  with_unfolding_all decide

/-- Claim C3 as amended: when both ankle scores are present and nonzero
and their sum is below 0.6, both published heights are forced to 0 and the
combined value pushed onto the buffer this tick is 0. -/
theorem lowConfidence_suppression (s : TrackerState) (f : Frame)
    (la ra : Keypoint) (l r : ℚ) (hl : f.leftAnkle = some la)
    (hr : f.rightAnkle = some ra) (hls : la.score = some l)
    (hrs : ra.score = some r) (hl0 : l ≠ 0) (hr0 : r ≠ 0)
    (hsum : r + l < 3/5) :
    (processPose s f).chart = some (0, 0) ∧
    (processPose s f).state.feetPositions.getLast? = some 0 := by
  have hfh : footHeights f.height la ra = (0, 0) := by
    unfold footHeights
    rw [hls, hrs]
    have h1 : scoreTruthy (some l) = true := by
      simp [scoreTruthy, hl0]
    have h2 : scoreTruthy (some r) = true := by
      simp [scoreTruthy, hr0]
    have h3 : decide (scoreVal (some r) + scoreVal (some l) < 3/5) = true := by
      simpa [scoreVal] using hsum
    rw [h1, h2, h3]
    rfl
  refine ⟨?_, ?_⟩
  · rw [processPose_chart_present s f la ra hl hr, hfh]
  · rw [processPose_feet_present s f la ra hl hr, hfh]
    have hm : min ((0 : ℚ), (0 : ℚ)).1 ((0 : ℚ), (0 : ℚ)).2 = 0 := by
      simp
    rw [hm]
    exact pushWindow_getLast s.feetPositions 0

/-- Witness for the amended C3: with confidences 0.2 and 0.2 the heights
are suppressed and a 0 is pushed. -/
theorem lowConfidence_suppression_witness :
    (processPose initState frameLowConf).chart = some (0, 0) ∧
    (processPose initState frameLowConf).state.feetPositions.getLast? =
      some 0 :=
  lowConfidence_suppression initState frameLowConf _ _ (1/5) (1/5)
    rfl rfl rfl rfl (by with_unfolding_all decide)
    (by with_unfolding_all decide) (by with_unfolding_all decide)

/-- Counterexample to claim C4 as stated: after the first six Scenario A
samples (through t = 165 ms, where the height is 125 > 120) the machine is
still airborne, so the episode does not end around t = 165 ms; it ends at
the t = 198 ms sample with flight time 0.099 s, not approximately
0.066 s. -/
theorem scenarioA_flight_time_counterexample :
    (runTicks initState (scenarioA.take 6)).inAir = true ∧
    (runTrace initState scenarioA).episodes =
      [{ startTimestampMs := 99, endTimestampMs := 198,
         flightTimeSeconds := 99/1000, peakHeightPx := 40 }] ∧
    ¬ ((99 : ℚ)/1000 = 66/1000) := by
  with_unfolding_all decide

/-- Claim C4 as amended: on Scenario A the ground level settles at 100,
the airborne episode starting at t = 99 ms ends at the t = 198 ms sample
with flight time 0.099 s, which is at most the 0.1 s floor, so no jump is
counted: no event is emitted and the final jump count is 0. -/
theorem scenarioA_no_jump :
    (runTrace initState scenarioA).state.groundLevel = some 100 ∧
    (runTrace initState scenarioA).state.jumpCount = 0 ∧
    (runTrace initState scenarioA).events = [] ∧
    (runTrace initState scenarioA).episodes =
      [{ startTimestampMs := 99, endTimestampMs := 198,
         flightTimeSeconds := 99/1000, peakHeightPx := 40 }] ∧
    (99 : ℚ)/1000 ≤ 1/10 := by
  with_unfolding_all decide

/-- Counterexample to claim C5 as stated: the third source document drives
its buffer, ground-level and airborne logic with the arithmetic average of
the two foot heights, not their minimum — on raw heights 100 and 200 it
pushes 150 where the minimum is 100. -/
theorem combine_average_counterexample :
    (processPoseV3 initState frameTwoFeet).state.feetPositions = [150] ∧
    min ((480 : ℚ) - 380) ((480 : ℚ) - 280) = 100 ∧
    ¬ ((150 : ℚ) = 100) := by
  with_unfolding_all decide

/-- Claim C5 as amended: in the first and second documents' `processPose`
the scalar pushed onto the buffer each processed tick is the minimum of
the two extracted foot heights, while in the third document's
`processPose` it is their arithmetic average. -/
theorem combine_policy (s : TrackerState) (s2 : TrackerStateV2) (f : Frame)
    (la ra : Keypoint)
    (hl : f.leftAnkle = some la) (hr : f.rightAnkle = some ra) :
    (processPose s f).state.feetPositions.getLast? =
      some (min (footHeights f.height la ra).1
        (footHeights f.height la ra).2) ∧
    (processPoseV2 s2 f).state.feetPositions.getLast? =
      some (min (footHeights f.height la ra).1
        (footHeights f.height la ra).2) ∧
    (processPoseV3 s f).state.feetPositions.getLast? =
      some (((f.height - la.y) + (f.height - ra.y)) / 2) := by
  refine ⟨?_, ?_, ?_⟩
  · rw [processPose_feet_present s f la ra hl hr]
    exact pushWindow_getLast _ _
  · rw [processPoseV2_feet_present s2 f la ra hl hr]
    exact pushWindow_getLast _ _
  · rw [processPoseV3_feet_present s f la ra hl hr]
    exact pushWindow_getLast _ _

/-- Witness for the amended C5 on `frameTwoFeet`: variants 1 and 2 push
the minimum, variant 3 pushes the average. -/
theorem combine_policy_witness :
    (processPose initState frameTwoFeet).state.feetPositions.getLast? =
      some (min (footHeights frameTwoFeet.height
          { y := 380, score := some (9/10) }
          { y := 280, score := some (9/10) }).1
        (footHeights frameTwoFeet.height
          { y := 380, score := some (9/10) }
          { y := 280, score := some (9/10) }).2) ∧
    (processPoseV2 initStateV2 frameTwoFeet).state.feetPositions.getLast? =
      some (min (footHeights frameTwoFeet.height
          { y := 380, score := some (9/10) }
          { y := 280, score := some (9/10) }).1
        (footHeights frameTwoFeet.height
          { y := 380, score := some (9/10) }
          { y := 280, score := some (9/10) }).2) ∧
    (processPoseV3 initState frameTwoFeet).state.feetPositions.getLast? =
      some (((frameTwoFeet.height - 380) + (frameTwoFeet.height - 280)) / 2) :=
  combine_policy initState initStateV2 frameTwoFeet
    { y := 380, score := some (9/10) } { y := 280, score := some (9/10) }
    rfl rfl

/-- Claim C6: every falling edge that ends an airborne episode computes
the episode's peak height as the maximum of the most recent 15 buffered
samples (the pushed sample of this tick included) minus the current ground
level. -/
theorem peak_height_on_falling_edge (s : TrackerState) (f : Frame)
    (la ra : Keypoint) (t0 : ℚ) (hl : f.leftAnkle = some la)
    (hr : f.rightAnkle = some ra) (hair : s.inAir = true)
    (hstart : s.jumpStartTime = some t0)
    (hfall : (processPose s f).state.inAir = false) :
    ∃ ep gEnd, (processPose s f).episode = some ep ∧
      (processPose s f).state.groundLevel = some gEnd ∧
      ep.peakHeightPx =
        jsMax (takeLast 15 (processPose s f).state.feetPositions) - gEnd ∧
      (processPose s f).state.feetPositions.getLast? =
        some (min (footHeights f.height la ra).1
          (footHeights f.height la ra).2) := by
  have h := processPose_fallingEdge s f la ra t0 _ _ _ _ _ hl hr hair hstart
    hfall rfl rfl rfl rfl rfl
  rcases h with ⟨hep, hrest⟩
  by_cases hD : (1 : ℚ)/10 < (f.timestamp - t0) / 1000
  · rw [if_pos hD] at hrest
    rcases hrest with ⟨-, hstate⟩
    refine ⟨_, groundUpdate s.groundLevel
      (min (footHeights f.height la ra).1 (footHeights f.height la ra).2),
      hep, ?_, ?_, ?_⟩
    · rw [hstate]
    · rw [hstate]
    · rw [hstate]
      exact pushWindow_getLast _ _
  · rw [if_neg hD] at hrest
    rcases hrest with ⟨-, hstate⟩
    refine ⟨_, groundUpdate s.groundLevel
      (min (footHeights f.height la ra).1 (footHeights f.height la ra).2),
      hep, ?_, ?_, ?_⟩
    · rw [hstate]
    · rw [hstate]
    · rw [hstate]
      exact pushWindow_getLast _ _

/-- Witness for C6 at the concrete landing tick of `stateAirborne`. -/
theorem peak_height_on_falling_edge_witness :
    ∃ ep gEnd, (processPose stateAirborne frameLand).episode = some ep ∧
      (processPose stateAirborne frameLand).state.groundLevel = some gEnd ∧
      ep.peakHeightPx =
        jsMax (takeLast 15
          (processPose stateAirborne frameLand).state.feetPositions) - gEnd ∧
      (processPose stateAirborne frameLand).state.feetPositions.getLast? =
        some (min (footHeights frameLand.height
            { y := 380, score := some (9/10) }
            { y := 380, score := some (9/10) }).1
          (footHeights frameLand.height
            { y := 380, score := some (9/10) }
            { y := 380, score := some (9/10) }).2) :=
  peak_height_on_falling_edge stateAirborne frameLand _ _ 0 rfl rfl rfl rfl
    (by with_unfolding_all decide)

/-- Claim C7: Scenario C — two accepted jumps with peaks 30 px then 50 px
leave jumpCount 2, maxHeight 50, bestMaxHeight 50 and bestMaxJump 2, the
two emitted events carrying indices 1 and 2; and in general an accepted
jump's index is the previous jump count plus one. -/
theorem scenarioC_best_stats :
    ((runTraceV2 initStateV2 scenarioC).state.jumpCount = 2 ∧
     (runTraceV2 initStateV2 scenarioC).state.maxHeight = 50 ∧
     (runTraceV2 initStateV2 scenarioC).state.bestMaxHeight = 50 ∧
     (runTraceV2 initStateV2 scenarioC).state.bestMaxJump = 2 ∧
     (runTraceV2 initStateV2 scenarioC).events =
       [{ jumpIndex := 1, startTimestampMs := 100, endTimestampMs := 300,
          flightTimeSeconds := 1/5, peakHeightPx := 30 },
        { jumpIndex := 2, startTimestampMs := 400, endTimestampMs := 600,
          flightTimeSeconds := 1/5, peakHeightPx := 50 }]) ∧
    (∀ (s : TrackerStateV2) (f : Frame) (e : JumpEvent),
      (processPoseV2 s f).event = some e → e.jumpIndex = s.jumpCount + 1) := by
  constructor
  · with_unfolding_all decide
  · intro s f e he
    rcases hl : f.leftAnkle with _ | la <;>
      rcases hr : f.rightAnkle with _ | ra <;>
      simp only [processPoseV2, hl, hr] at he
    · exact Option.noConfusion he
    · exact Option.noConfusion he
    · exact Option.noConfusion he
    · split at he
      · exact Option.noConfusion he
      · split at he
        · split at he
          · split at he
            · obtain rfl := Option.some.inj he
              rfl
            · exact Option.noConfusion he
          · exact Option.noConfusion he
        · exact Option.noConfusion he

/-- Witness for C7's index rule: the jump accepted on `stateOneJump`'s
landing carries index 2 = 1 + 1. -/
theorem scenarioC_best_stats_witness :
    (JumpEvent.mk 2 0 200 (1/5) 0).jumpIndex = stateOneJump.jumpCount + 1 :=
  scenarioC_best_stats.2 stateOneJump frameEndJump
    (JumpEvent.mk 2 0 200 (1/5) 0) (by with_unfolding_all decide)

/-- Claim C8: a frame with a missing ankle keypoint is skipped entirely —
the returned state is the old state unchanged (buffer, ground level,
airborne flag, jump-start timestamp and all stats included) and no event,
episode or chart output is emitted. -/
theorem missing_keypoint_skip (s : TrackerState) (f : Frame)
    (h : f.leftAnkle = none ∨ f.rightAnkle = none) :
    processPose s f =
      { state := s, event := none, episode := none, chart := none } :=
  processPose_skip s f h

/-- Witness for C8 on a concrete frame missing its left ankle. -/
theorem missing_keypoint_skip_witness :
    processPose stateAirborne frameNoLeft =
      { state := stateAirborne, event := none, episode := none,
        chart := none } :=
  missing_keypoint_skip stateAirborne frameNoLeft (Or.inl rfl)

/-- Claim C9: a buffer holding at most 30 samples still holds at most 30
after any tick and any continuation of the run; a push below capacity
appends the combined sample and evicts nothing, and a push at capacity 30
evicts exactly the oldest entry, keeping FIFO order. -/
theorem buffer_bound (s : TrackerState) (f : Frame) (la ra : Keypoint)
    (hl : f.leftAnkle = some la) (hr : f.rightAnkle = some ra)
    (hlen : s.feetPositions.length ≤ 30) :
    ((s.feetPositions.length < 30 →
        (processPose s f).state.feetPositions =
          s.feetPositions ++
            [min (footHeights f.height la ra).1
              (footHeights f.height la ra).2]) ∧
     (s.feetPositions.length = 30 →
        (processPose s f).state.feetPositions =
          s.feetPositions.drop 1 ++
            [min (footHeights f.height la ra).1
              (footHeights f.height la ra).2])) ∧
    (processPose s f).state.feetPositions.length ≤ 30 ∧
    ∀ fs : List Frame, (runTicks s fs).feetPositions.length ≤ 30 := by
  refine ⟨⟨?_, ?_⟩, processPose_length_le s f hlen,
    fun fs => runTicks_length_le fs s hlen⟩
  · intro h
    rw [processPose_feet_present s f la ra hl hr]
    exact pushWindow_of_lt _ _ h
  · intro h
    rw [processPose_feet_present s f la ra hl hr]
    exact pushWindow_of_eq _ _ h

/-- Witness for C9 on a state with a two-sample buffer. -/
theorem buffer_bound_witness :
    ((stateAirborne.feetPositions.length < 30 →
        (processPose stateAirborne frameLand).state.feetPositions =
          stateAirborne.feetPositions ++
            [min (footHeights frameLand.height
                { y := 380, score := some (9/10) }
                { y := 380, score := some (9/10) }).1
              (footHeights frameLand.height
                { y := 380, score := some (9/10) }
                { y := 380, score := some (9/10) }).2]) ∧
     (stateAirborne.feetPositions.length = 30 →
        (processPose stateAirborne frameLand).state.feetPositions =
          stateAirborne.feetPositions.drop 1 ++
            [min (footHeights frameLand.height
                { y := 380, score := some (9/10) }
                { y := 380, score := some (9/10) }).1
              (footHeights frameLand.height
                { y := 380, score := some (9/10) }
                { y := 380, score := some (9/10) }).2])) ∧
    (processPose stateAirborne frameLand).state.feetPositions.length ≤ 30 ∧
    ∀ fs : List Frame,
      (runTicks stateAirborne fs).feetPositions.length ≤ 30 :=
  buffer_bound stateAirborne frameLand _ _ rfl rfl (by decide)

/-- Claim C10: the reset of the best-of variant clears the ground level,
airborne flag, jump-start timestamp and buffer, zeroes the four session
stats, and leaves the four best-of statistics exactly as they were, for
every incoming state (the reset takes no configuration flag). -/
theorem resetV2_clears_session_keeps_best (s : TrackerStateV2) :
    (resetV2 s).groundLevel = none ∧ (resetV2 s).inAir = false ∧
    (resetV2 s).jumpStartTime = none ∧ (resetV2 s).feetPositions = [] ∧
    (resetV2 s).jumpCount = 0 ∧ (resetV2 s).maxHeight = 0 ∧
    (resetV2 s).flightTime = 0 ∧ (resetV2 s).lastJumpHeight = 0 ∧
    (resetV2 s).bestFlightTime = s.bestFlightTime ∧
    (resetV2 s).bestFlightJump = s.bestFlightJump ∧
    (resetV2 s).bestMaxHeight = s.bestMaxHeight ∧
    (resetV2 s).bestMaxJump = s.bestMaxJump :=
  ⟨rfl, rfl, rfl, rfl, rfl, rfl, rfl, rfl, rfl, rfl, rfl, rfl⟩
